import Mathlib

/-!
Verification of the turbo-keys device-protocol core
(`src/python/turbokeys.py`) against its specification.

The Python module is embedded shallowly:

* the symbol tables (`KEYCODES`, `MEDIA_KEYCODES`) become association lists;
* `parse_key_combo` becomes a pure function on `String`
  (Python's `.lower()` / `.replace(' ', '')` / `.split('+')` are modelled
  character-by-character on `List Char`);
* the `MiniKeyboard` session becomes a record `(connected, report_id)`;
  the HID transport becomes an oracle `Transport` telling, for each
  successive `device.write` call, whether it succeeds (Python: returns)
  or fails (Python: raises);
* every method returns its Python boolean result together with the trace
  of attempted writes: each entry is the full 9-byte frame handed to
  `device.write` paired with that write's outcome.

Machine integers: Python ints are unbounded, so payload bytes and the
`layer` argument are `Int` (the source performs no masking before
`device.write`); `Int.shiftLeft` / `Int.lor` from Mathlib match Python's
two's-complement semantics of `<<` / `|` on unbounded ints.
-/

/-- `KeyType.BASIC` from the source enum. -/
def KeyType.BASIC : Int := 1

/-- `KeyType.MEDIA` from the source enum. -/
def KeyType.MEDIA : Int := 2

/-- `KeyType.MOUSE` from the source enum (defined, unused by the core). -/
def KeyType.MOUSE : Int := 3

/-- `KeyType.LED` from the source enum. -/
def KeyType.LED : Int := 8

/-- `Modifier.NONE` from the source enum. -/
def Modifier.NONE : Nat := 0

/-- `Modifier.CTRL` from the source enum. -/
def Modifier.CTRL : Nat := 1

/-- `Modifier.SHIFT` from the source enum. -/
def Modifier.SHIFT : Nat := 2

/-- `Modifier.ALT` from the source enum. -/
def Modifier.ALT : Nat := 4

/-- `Modifier.WIN` from the source enum. -/
def Modifier.WIN : Nat := 8

/-- `Modifier.RCTRL` from the source enum (right-side, never produced by parsing). -/
def Modifier.RCTRL : Nat := 16

/-- `Modifier.RSHIFT` from the source enum. -/
def Modifier.RSHIFT : Nat := 32

/-- `Modifier.RALT` from the source enum. -/
def Modifier.RALT : Nat := 64

/-- `Modifier.RWIN` from the source enum. -/
def Modifier.RWIN : Nat := 128

/-- The `KEYCODES` dict from the source, as an association list
(keys are unique, so first-match lookup agrees with the Python dict). -/
def KEYCODES : List (String × Nat) := [
  ("a", 4), ("b", 5), ("c", 6), ("d", 7), ("e", 8), ("f", 9), ("g", 10), ("h", 11),
  ("i", 12), ("j", 13), ("k", 14), ("l", 15), ("m", 16), ("n", 17), ("o", 18), ("p", 19),
  ("q", 20), ("r", 21), ("s", 22), ("t", 23), ("u", 24), ("v", 25), ("w", 26), ("x", 27),
  ("y", 28), ("z", 29),
  ("1", 30), ("2", 31), ("3", 32), ("4", 33), ("5", 34),
  ("6", 35), ("7", 36), ("8", 37), ("9", 38), ("0", 39),
  ("enter", 40), ("return", 40),
  ("escape", 41), ("esc", 41),
  ("backspace", 42),
  ("tab", 43),
  ("space", 44),
  ("minus", 45), ("-", 45),
  ("equal", 46), ("=", 46),
  ("leftbracket", 47), ("[", 47),
  ("rightbracket", 48), ("]", 48),
  ("backslash", 49), ("\\", 49),
  ("semicolon", 51), (";", 51),
  ("quote", 52), ("\x27", 52),
  ("grave", 53), ("\x60", 53),
  ("comma", 54), (",", 54),
  ("period", 55), (".", 55),
  ("slash", 56), ("/", 56),
  ("capslock", 57),
  ("f1", 58), ("f2", 59), ("f3", 60), ("f4", 61), ("f5", 62), ("f6", 63),
  ("f7", 64), ("f8", 65), ("f9", 66), ("f10", 67), ("f11", 68), ("f12", 69),
  ("printscreen", 70), ("prtsc", 70),
  ("scrolllock", 71),
  ("pause", 72), ("break", 72),
  ("insert", 73),
  ("home", 74),
  ("pageup", 75), ("pgup", 75),
  ("delete", 76), ("del", 76),
  ("end", 77),
  ("pagedown", 78), ("pgdn", 78),
  ("right", 79), ("left", 80), ("down", 81), ("up", 82),
  ("numlock", 83),
  ("kp_divide", 84), ("kp_multiply", 85), ("kp_minus", 86), ("kp_plus", 87),
  ("kp_enter", 88),
  ("kp_1", 89), ("kp_2", 90), ("kp_3", 91), ("kp_4", 92), ("kp_5", 93),
  ("kp_6", 94), ("kp_7", 95), ("kp_8", 96), ("kp_9", 97), ("kp_0", 98),
  ("kp_period", 99), ("kp_dot", 99),
  ("menu", 101), ("app", 101)]

/-- The `MEDIA_KEYCODES` dict from the source. -/
def MEDIA_KEYCODES : List (String × Nat) := [
  ("play", 205), ("pause", 205), ("playpause", 205),
  ("stop", 183),
  ("prev", 182), ("previous", 182),
  ("next", 181),
  ("mute", 226),
  ("volup", 233), ("volumeup", 233),
  ("voldown", 234), ("volumedown", 234)]

/-- Python `combo_str.replace(' ', '')`: remove every space character. -/
def removeSpaces (cs : List Char) : List Char := cs.filter (fun c => c != ' ')

/-- Python `s.split('+')` on a character list (always returns at least one,
possibly empty, token; `""` splits to `[""]`, `"+"` to `["", ""]`). -/
def splitOnPlus : List Char → List (List Char)
  | [] => [[]]
  | c :: rest =>
    let r := splitOnPlus rest
    if c = '+' then [] :: r
    else
      match r with
      | [] => [[c]]
      | tok :: toks => (c :: tok) :: toks

/-- One iteration of the `for part in parts` loop of `parse_key_combo`:
the accumulator is the `(modifiers, keycode)` pair of mutable locals. -/
def comboStep (acc : Nat × Nat) (part : String) : Nat × Nat :=
  if part == "ctrl" || part == "control" then (acc.1 ||| Modifier.CTRL, acc.2)
  else if part == "shift" then (acc.1 ||| Modifier.SHIFT, acc.2)
  else if part == "alt" then (acc.1 ||| Modifier.ALT, acc.2)
  else if part == "win" || part == "super" || part == "meta" || part == "gui" then
    (acc.1 ||| Modifier.WIN, acc.2)
  else
    match List.lookup part KEYCODES with
    | some code => (acc.1, code)
    | none =>
      if part.length == 1 && part.data.all Char.isAlpha then
        (acc.1, (List.lookup part KEYCODES).getD 0)
      else acc

/-- `parse_key_combo` from the source: lower-case, strip spaces, split on
`+`, then fold the token classification loop from `(0, 0)`. -/
def parse_key_combo (combo_str : String) : Nat × Nat :=
  ((splitOnPlus (removeSpaces (combo_str.data.map Char.toLower))).map
    (fun cs => String.mk cs)).foldl comboStep (0, 0)

/-- A token the `for part in parts` loop reacts to: a modifier name, a
`KEYCODES` entry, or a single alphabetic character. -/
def isComboToken (part : String) : Bool :=
  part == "ctrl" || part == "control" || part == "shift" || part == "alt" ||
  part == "win" || part == "super" || part == "meta" || part == "gui" ||
  (List.lookup part KEYCODES).isSome ||
  (part.length == 1 && part.data.all Char.isAlpha)

/-- The HID transport collaborator: `ok n` tells whether the `n`-th
`device.write` call of the session succeeds (Python: returns normally)
or fails (Python: raises an exception). -/
structure Transport where
  ok : Nat → Bool

/-- Session state of the `MiniKeyboard` class: whether `self.device` is
set, and the current `self.report_id`. -/
structure MiniKeyboard where
  connected : Bool
  report_id : Int

/-- The trace of one method call: each attempted `device.write`, as the
full frame handed to the transport paired with that write's outcome. -/
abbrev WriteTrace := List (List Int × Bool)

/-- `(data + [0] * 8)[:8]` from `_write_report`: right-pad with zeros to
8 bytes, then truncate to the first 8 bytes. -/
def pad8 (data : List Int) : List Int := (data ++ List.replicate 8 0).take 8

/-- `_write_report`: on a connected session, attempt one write of
`[self.report_id] + report` (the `n`-th write of the session) and report
its outcome; on a disconnected session, return `False` without writing. -/
def _write_report (kb : MiniKeyboard) (t : Transport) (n : Nat) (data : List Int) :
    Bool × WriteTrace :=
  if kb.connected then
    ((t.ok n), [(kb.report_id :: pad8 data, t.ok n)])
  else (false, [])

/-- `_send_layer_switch`: clamp `layer` below at 1, then write
`[0xA1, layer, 0, 0, 0, 0, 0, 0]`. -/
def _send_layer_switch (kb : MiniKeyboard) (t : Transport) (n : Nat) (layer : Int) :
    Bool × WriteTrace :=
  _write_report kb t n [0xA1, if layer < 1 then 1 else layer, 0, 0, 0, 0, 0, 0]

/-- `_send_flash_command`: write `[0xAA, second_byte, 0, ...]` with
`second_byte = 0xA1` for an LED commit and `0xAA` otherwise. -/
def _send_flash_command (kb : MiniKeyboard) (t : Transport) (n : Nat) (is_led : Bool) :
    Bool × WriteTrace :=
  _write_report kb t n [0xAA, if is_led then 0xA1 else 0xAA, 0, 0, 0, 0, 0, 0]

/-- `(layer << 4) | (key_type & 0x0F)` from the key-set methods. -/
def modern_type_byte (layer key_type : Int) : Int :=
  Int.lor (layer <<< 4) (Int.land key_type 0x0F)

/-- `set_basic_key`: `False` when disconnected; otherwise send the layer
switch when `report_id != 0` (its result is discarded, as in the source),
then the basic-key packet, then — only if that write succeeded — the
flash commit, whose result is returned. -/
def set_basic_key (kb : MiniKeyboard) (t : Transport) (n : Nat)
    (physical_key keycode modifiers layer : Int) : Bool × WriteTrace :=
  if kb.connected then
    let l1 : WriteTrace :=
      if kb.report_id ≠ 0 then (_send_layer_switch kb t n layer).2 else []
    let type_byte : Int :=
      if kb.report_id = 0 then Int.land KeyType.BASIC 0x0F
      else modern_type_byte layer KeyType.BASIC
    let w := _write_report kb t (n + l1.length)
      [physical_key, type_byte, 1, 0, modifiers, keycode, 0, 0]
    if w.1 then
      let f := _send_flash_command kb t (n + l1.length + w.2.length) false
      (f.1, l1 ++ w.2 ++ f.2)
    else (false, l1 ++ w.2)
  else (false, [])

/-- `set_media_key`: same sequencing as `set_basic_key`, with the
media-key packet `[physical_key, type_byte, media_keycode, 0, ...]`. -/
def set_media_key (kb : MiniKeyboard) (t : Transport) (n : Nat)
    (physical_key media_keycode layer : Int) : Bool × WriteTrace :=
  if kb.connected then
    let l1 : WriteTrace :=
      if kb.report_id ≠ 0 then (_send_layer_switch kb t n layer).2 else []
    let type_byte : Int :=
      if kb.report_id = 0 then Int.land KeyType.MEDIA 0x0F
      else modern_type_byte layer KeyType.MEDIA
    let w := _write_report kb t (n + l1.length)
      [physical_key, type_byte, media_keycode, 0, 0, 0, 0, 0]
    if w.1 then
      let f := _send_flash_command kb t (n + l1.length + w.2.length) false
      (f.1, l1 ++ w.2 ++ f.2)
    else (false, l1 ++ w.2)
  else (false, [])

/-- `set_led_mode`: `False` when disconnected; otherwise send the LED
packet `[0xB0, LED & 0x0F, mode, 0, ...]` (no layer switch), then — only
if that write succeeded — the LED-flavoured flash commit. -/
def set_led_mode (kb : MiniKeyboard) (t : Transport) (n : Nat) (mode : Int) :
    Bool × WriteTrace :=
  if kb.connected then
    let w := _write_report kb t n [0xB0, Int.land KeyType.LED 0x0F, mode, 0, 0, 0, 0, 0]
    if w.1 then
      let f := _send_flash_command kb t (n + w.2.length) true
      (f.1, w.2 ++ f.2)
    else (false, w.2)
  else (false, [])

/-- The probe frame `[rid] + [0] * 8` written by `_detect_version`. -/
def probeFrame (rid : Int) : List Int := rid :: List.replicate 8 0

/-- The `for rid in [3, 0, 2]` loop of `_detect_version`: try each report
id in order, fixing the first one whose probe write succeeds; if the list
is exhausted, default to report id 3. -/
def detectLoop (t : Transport) (n : Nat) : List Int → Int × WriteTrace
  | [] => (3, [])
  | rid :: rest =>
    if t.ok n then (rid, [(probeFrame rid, true)])
    else
      let r := detectLoop t (n + 1) rest
      (r.1, (probeFrame rid, false) :: r.2)

/-- `_detect_version`: probe report ids 3, 0, 2 in order (these writes go
straight to `device.write`, the session's writes number 0, 1, 2), fixing
`report_id` to the first accepted id, defaulting to 3. -/
def _detect_version (t : Transport) : Int × WriteTrace :=
  detectLoop t 0 [3, 0, 2]

/-- A transport on which every write succeeds. -/
def allOk : Transport := ⟨fun _ => true⟩

/-! ## Helper lemmas -/

theorem pad8_length (data : List Int) : (pad8 data).length = 8 := by
  simp [pad8]

theorem pad8_eq (data : List Int) :
    pad8 data = data.take 8 ++ List.replicate (8 - data.length) 0 := by
  rw [pad8, List.take_append_eq_append_take, List.take_replicate,
    Nat.min_eq_left (by omega : 8 - data.length ≤ 8)]

theorem basic_land_eq : Int.land KeyType.BASIC 0x0F = 1 := by decide

theorem media_land_eq : Int.land KeyType.MEDIA 0x0F = 2 := by decide

theorem led_land_eq : Int.land KeyType.LED 0x0F = 8 := by decide

theorem pad8_of_length_eight (a b c d e f g h : Int) :
    pad8 [a, b, c, d, e, f, g, h] = [a, b, c, d, e, f, g, h] := rfl

theorem set_basic_key_modern_eq (kb : MiniKeyboard) (t : Transport) (n : Nat)
    (slot kc mods layer : Int) (hc : kb.connected = true) (hm : ¬ kb.report_id = 0) :
    set_basic_key kb t n slot kc mods layer =
      if t.ok (n + 1) then
        (t.ok (n + 2),
         [(kb.report_id :: [0xA1, if layer < 1 then 1 else layer, 0, 0, 0, 0, 0, 0], t.ok n),
          (kb.report_id :: [slot, modern_type_byte layer KeyType.BASIC, 1, 0, mods, kc, 0, 0],
            true),
          (kb.report_id :: [0xAA, 0xAA, 0, 0, 0, 0, 0, 0], t.ok (n + 2))])
      else
        (false,
         [(kb.report_id :: [0xA1, if layer < 1 then 1 else layer, 0, 0, 0, 0, 0, 0], t.ok n),
          (kb.report_id :: [slot, modern_type_byte layer KeyType.BASIC, 1, 0, mods, kc, 0, 0],
            false)]) := by
  simp only [set_basic_key, _send_layer_switch, _send_flash_command, _write_report, hc,
    if_true, hm, if_neg, if_false, ite_not, pad8_of_length_eight]
  cases h1 : t.ok (n + 1) <;> simp [h1]

theorem set_basic_key_legacy_eq (kb : MiniKeyboard) (t : Transport) (n : Nat)
    (slot kc mods layer : Int) (hc : kb.connected = true) (h0 : kb.report_id = 0) :
    set_basic_key kb t n slot kc mods layer =
      if t.ok n then
        (t.ok (n + 1),
         [((0 : Int) :: [slot, 1, 1, 0, mods, kc, 0, 0], t.ok n),
          ((0 : Int) :: [0xAA, 0xAA, 0, 0, 0, 0, 0, 0], t.ok (n + 1))])
      else
        (false, [((0 : Int) :: [slot, 1, 1, 0, mods, kc, 0, 0], false)]) := by
  simp only [set_basic_key, _send_layer_switch, _send_flash_command, _write_report, hc,
    if_true, h0, pad8_of_length_eight]
  cases h1 : t.ok n <;> simp [h1, basic_land_eq]

theorem set_media_key_modern_eq (kb : MiniKeyboard) (t : Transport) (n : Nat)
    (slot mc layer : Int) (hc : kb.connected = true) (hm : ¬ kb.report_id = 0) :
    set_media_key kb t n slot mc layer =
      if t.ok (n + 1) then
        (t.ok (n + 2),
         [(kb.report_id :: [0xA1, if layer < 1 then 1 else layer, 0, 0, 0, 0, 0, 0], t.ok n),
          (kb.report_id :: [slot, modern_type_byte layer KeyType.MEDIA, mc, 0, 0, 0, 0, 0],
            true),
          (kb.report_id :: [0xAA, 0xAA, 0, 0, 0, 0, 0, 0], t.ok (n + 2))])
      else
        (false,
         [(kb.report_id :: [0xA1, if layer < 1 then 1 else layer, 0, 0, 0, 0, 0, 0], t.ok n),
          (kb.report_id :: [slot, modern_type_byte layer KeyType.MEDIA, mc, 0, 0, 0, 0, 0],
            false)]) := by
  simp only [set_media_key, _send_layer_switch, _send_flash_command, _write_report, hc,
    if_true, hm, if_neg, if_false, ite_not, pad8_of_length_eight]
  cases h1 : t.ok (n + 1) <;> simp [h1]

theorem set_media_key_legacy_eq (kb : MiniKeyboard) (t : Transport) (n : Nat)
    (slot mc layer : Int) (hc : kb.connected = true) (h0 : kb.report_id = 0) :
    set_media_key kb t n slot mc layer =
      if t.ok n then
        (t.ok (n + 1),
         [((0 : Int) :: [slot, 2, mc, 0, 0, 0, 0, 0], t.ok n),
          ((0 : Int) :: [0xAA, 0xAA, 0, 0, 0, 0, 0, 0], t.ok (n + 1))])
      else
        (false, [((0 : Int) :: [slot, 2, mc, 0, 0, 0, 0, 0], false)]) := by
  simp only [set_media_key, _send_layer_switch, _send_flash_command, _write_report, hc,
    if_true, h0, pad8_of_length_eight]
  cases h1 : t.ok n <;> simp [h1, media_land_eq]

theorem set_led_mode_eq (kb : MiniKeyboard) (t : Transport) (n : Nat) (mode : Int)
    (hc : kb.connected = true) :
    set_led_mode kb t n mode =
      if t.ok n then
        (t.ok (n + 1),
         [(kb.report_id :: [0xB0, 8, mode, 0, 0, 0, 0, 0], t.ok n),
          (kb.report_id :: [0xAA, 0xA1, 0, 0, 0, 0, 0, 0], t.ok (n + 1))])
      else
        (false, [(kb.report_id :: [0xB0, 8, mode, 0, 0, 0, 0, 0], false)]) := by
  simp only [set_led_mode, _send_flash_command, _write_report, hc, if_true,
    pad8_of_length_eight]
  cases h1 : t.ok n <;> simp [h1, led_land_eq]

/-- C8: invoking `set_basic_key`, `set_media_key` or `set_led_mode` on a
session with no open device returns `False` and attempts no write at all. -/
theorem C8_not_connected_no_frames (kb : MiniKeyboard) (t : Transport) (n : Nat)
    (slot kc mods mc layer mode : Int) (h : kb.connected = false) :
    set_basic_key kb t n slot kc mods layer = (false, []) ∧
    set_media_key kb t n slot mc layer = (false, []) ∧
    set_led_mode kb t n mode = (false, []) := by
  simp [set_basic_key, set_media_key, set_led_mode, h]

theorem C8_witness :
    set_basic_key ⟨false, 3⟩ allOk 0 1 4 0 1 = (false, []) ∧
    set_media_key ⟨false, 3⟩ allOk 0 1 233 1 = (false, []) ∧
    set_led_mode ⟨false, 3⟩ allOk 0 2 = (false, []) :=
  C8_not_connected_no_frames ⟨false, 3⟩ allOk 0 1 4 0 233 1 2 rfl

/-- C9: on a connected session `_write_report` attempts exactly one frame,
the report id followed by the payload right-padded with zeros to, or
truncated to, 8 bytes; every attempted frame is exactly 9 bytes long. -/
theorem C9_frame_shape (kb : MiniKeyboard) (t : Transport) (n : Nat) (data : List Int)
    (h : kb.connected = true) :
    (_write_report kb t n data).2.map Prod.fst =
      [kb.report_id :: (data.take 8 ++ List.replicate (8 - data.length) 0)] ∧
    ∀ f ∈ (_write_report kb t n data).2, f.1.length = 9 := by
  constructor
  · simp [_write_report, h, pad8_eq]
  · intro f hf
    simp only [_write_report, h, if_true, List.mem_singleton] at hf
    simp [hf, pad8_length]

theorem C9_witness :
    (_write_report ⟨true, 3⟩ allOk 0 [1, 2, 3]).2.map Prod.fst =
      [[3, 1, 2, 3, 0, 0, 0, 0, 0]] ∧
    ∀ f ∈ (_write_report ⟨true, 3⟩ allOk 0 [1, 2, 3]).2, f.1.length = 9 :=
  C9_frame_shape ⟨true, 3⟩ allOk 0 [1, 2, 3] rfl

/-- C4: dialect detection probes report ids 3, 0, 2 in that order with an
8-zero payload, fixes the first accepted id, and defaults to 3 when all
probes fail; in particular a transport failing at id 3 and accepting id 0
always yields report id 0. -/
theorem C4_detect_order (t : Transport) :
    (t.ok 0 = true →
      _detect_version t = (3, [([3, 0, 0, 0, 0, 0, 0, 0, 0], true)])) ∧
    (t.ok 0 = false → t.ok 1 = true →
      _detect_version t =
        (0, [([3, 0, 0, 0, 0, 0, 0, 0, 0], false),
             ([0, 0, 0, 0, 0, 0, 0, 0, 0], true)])) ∧
    (t.ok 0 = false → t.ok 1 = false → t.ok 2 = true →
      _detect_version t =
        (2, [([3, 0, 0, 0, 0, 0, 0, 0, 0], false),
             ([0, 0, 0, 0, 0, 0, 0, 0, 0], false),
             ([2, 0, 0, 0, 0, 0, 0, 0, 0], true)])) ∧
    (t.ok 0 = false → t.ok 1 = false → t.ok 2 = false →
      _detect_version t =
        (3, [([3, 0, 0, 0, 0, 0, 0, 0, 0], false),
             ([0, 0, 0, 0, 0, 0, 0, 0, 0], false),
             ([2, 0, 0, 0, 0, 0, 0, 0, 0], false)])) := by
  refine ⟨fun h0 => ?_, fun h0 h1 => ?_, fun h0 h1 h2 => ?_, fun h0 h1 h2 => ?_⟩ <;>
    simp [_detect_version, detectLoop, probeFrame, h0, *, List.replicate]

theorem C4_witness :
    _detect_version ⟨fun n => n == 1⟩ =
      (0, [([3, 0, 0, 0, 0, 0, 0, 0, 0], false),
           ([0, 0, 0, 0, 0, 0, 0, 0, 0], true)]) :=
  (C4_detect_order ⟨fun n => n == 1⟩).2.1 rfl rfl

/-- C5: on a connected session with a fully working transport,
`set_led_mode` emits exactly the LED packet `[0xB0, 0x8, mode, 0, ...]`
followed by the flash commit with second byte `0xA1`, under either
dialect, and no frame of the trace is a layer-switch frame. -/
theorem C5_led_mode_frames (kb : MiniKeyboard) (t : Transport) (mode : Int)
    (hc : kb.connected = true) (ht : ∀ m, t.ok m = true) :
    (set_led_mode kb t 0 mode).2.map Prod.fst =
      [kb.report_id :: [0xB0, 8, mode, 0, 0, 0, 0, 0],
       kb.report_id :: [0xAA, 0xA1, 0, 0, 0, 0, 0, 0]] ∧
    ∀ f ∈ (set_led_mode kb t 0 mode).2, f.1.get? 1 ≠ some 0xA1 := by
  rw [set_led_mode_eq kb t 0 mode hc]
  refine ⟨by simp [ht], ?_⟩
  intro f hf
  simp only [ht 0, if_true, List.mem_cons, List.mem_singleton, List.not_mem_nil,
    or_false] at hf
  rcases hf with hf | hf <;> simp [hf]

theorem C5_witness :
    (set_led_mode ⟨true, 0⟩ allOk 0 2).2.map Prod.fst =
      [[0, 176, 8, 2, 0, 0, 0, 0, 0], [0, 170, 161, 0, 0, 0, 0, 0, 0]] ∧
    ∀ f ∈ (set_led_mode ⟨true, 0⟩ allOk 0 2).2, f.1.get? 1 ≠ some 0xA1 :=
  C5_led_mode_frames ⟨true, 0⟩ allOk 2 rfl (fun _ => rfl)

/-- C1: on a connected session with a fully working transport, for valid
inputs: under the Modern dialect (report id 2 or 3, layer 1-3),
`set_basic_key` emits exactly three frames — layer switch, the basic-key
packet `[slot, typeByte, 1, 0, modifiers, keycode, 0, 0]`, flash commit —
and the type byte is `(layer <<< 4) ||| 0x1 = 16 * layer + 1`; under the
Legacy dialect (report id 0) it emits exactly two frames, no layer
switch, with type byte `0x1` regardless of the layer argument. -/
theorem C1_set_basic_key_frames (kb : MiniKeyboard) (t : Transport)
    (slot kc mods layer : Int) (hc : kb.connected = true)
    (ht : ∀ m, t.ok m = true) :
    ((kb.report_id = 2 ∨ kb.report_id = 3) → 1 ≤ layer → layer ≤ 3 →
      (set_basic_key kb t 0 slot kc mods layer).2.map Prod.fst =
        [kb.report_id :: [0xA1, layer, 0, 0, 0, 0, 0, 0],
         kb.report_id :: [slot, 16 * layer + 1, 1, 0, mods, kc, 0, 0],
         kb.report_id :: [0xAA, 0xAA, 0, 0, 0, 0, 0, 0]] ∧
      modern_type_byte layer KeyType.BASIC = 16 * layer + 1) ∧
    (kb.report_id = 0 →
      (set_basic_key kb t 0 slot kc mods layer).2.map Prod.fst =
        [(0 : Int) :: [slot, 1, 1, 0, mods, kc, 0, 0],
         (0 : Int) :: [0xAA, 0xAA, 0, 0, 0, 0, 0, 0]]) := by
  constructor
  · intro hd h1 h3
    have hm : ¬ kb.report_id = 0 := by rcases hd with h | h <;> simp [h]
    have hty : modern_type_byte layer KeyType.BASIC = 16 * layer + 1 := by
      interval_cases layer <;> decide
    have hcl : ¬ layer < 1 := by omega
    rw [set_basic_key_modern_eq kb t 0 slot kc mods layer hc hm]
    simp [ht, hty, hcl]
  · intro h0
    rw [set_basic_key_legacy_eq kb t 0 slot kc mods layer hc h0]
    simp [ht]

theorem C1_witness :
    ((set_basic_key ⟨true, 3⟩ allOk 0 1 4 3 2).2.map Prod.fst =
      [[3, 161, 2, 0, 0, 0, 0, 0, 0],
       [3, 1, 33, 1, 0, 3, 4, 0, 0],
       [3, 170, 170, 0, 0, 0, 0, 0, 0]] ∧
      modern_type_byte 2 KeyType.BASIC = 33) ∧
    (set_basic_key ⟨true, 0⟩ allOk 0 1 4 3 2).2.map Prod.fst =
      [[0, 1, 1, 1, 0, 3, 4, 0, 0], [0, 170, 170, 0, 0, 0, 0, 0, 0]] :=
  ⟨(C1_set_basic_key_frames ⟨true, 3⟩ allOk 1 4 3 2 rfl (fun _ => rfl)).1
      (Or.inr rfl) (by decide) (by decide),
   (C1_set_basic_key_frames ⟨true, 0⟩ allOk 1 4 3 2 rfl (fun _ => rfl)).2 rfl⟩

/-- C2 counterexample: with a connected Modern session whose transport
fails exactly the first write (the layer switch), `set_basic_key` still
sends the two remaining packets and returns success — refuting the claim
that a failed packet aborts the rest of the sequence and the call fails. -/
theorem C2_counterexample :
    (set_basic_key ⟨true, 3⟩ ⟨fun n => n != 0⟩ 0 1 4 0 1).1 = true ∧
    (set_basic_key ⟨true, 3⟩ ⟨fun n => n != 0⟩ 0 1 4 0 1).2.map Prod.snd =
      [false, true, true] := by
  decide

/-- C2 amended, for both `set_basic_key` and `set_media_key` under either
dialect: a failed key-set packet aborts the flash commit and the call
fails; a failed flash commit makes the call fail even though the key-set
packet was sent; but a failed layer switch (Modern dialect) neither
aborts the remaining packets nor prevents a success result. -/
theorem C2_amended_abort (kb : MiniKeyboard) (t : Transport)
    (slot kc mods mc layer : Int) (hc : kb.connected = true) :
    ((kb.report_id ≠ 0 → t.ok 1 = false →
        (set_basic_key kb t 0 slot kc mods layer).1 = false ∧
        (set_basic_key kb t 0 slot kc mods layer).2.length = 2) ∧
     (kb.report_id ≠ 0 → t.ok 1 = true → t.ok 2 = false →
        (set_basic_key kb t 0 slot kc mods layer).1 = false ∧
        ((set_basic_key kb t 0 slot kc mods layer).2.map Prod.snd).get? 1 = some true) ∧
     (kb.report_id ≠ 0 → t.ok 0 = false → t.ok 1 = true → t.ok 2 = true →
        (set_basic_key kb t 0 slot kc mods layer).1 = true ∧
        (set_basic_key kb t 0 slot kc mods layer).2.length = 3)) ∧
    ((kb.report_id = 0 → t.ok 0 = false →
        (set_basic_key kb t 0 slot kc mods layer).1 = false ∧
        (set_basic_key kb t 0 slot kc mods layer).2.length = 1) ∧
     (kb.report_id = 0 → t.ok 0 = true → t.ok 1 = false →
        (set_basic_key kb t 0 slot kc mods layer).1 = false ∧
        ((set_basic_key kb t 0 slot kc mods layer).2.map Prod.snd).get? 0 = some true)) ∧
    ((kb.report_id ≠ 0 → t.ok 1 = false →
        (set_media_key kb t 0 slot mc layer).1 = false ∧
        (set_media_key kb t 0 slot mc layer).2.length = 2) ∧
     (kb.report_id ≠ 0 → t.ok 1 = true → t.ok 2 = false →
        (set_media_key kb t 0 slot mc layer).1 = false ∧
        ((set_media_key kb t 0 slot mc layer).2.map Prod.snd).get? 1 = some true) ∧
     (kb.report_id ≠ 0 → t.ok 0 = false → t.ok 1 = true → t.ok 2 = true →
        (set_media_key kb t 0 slot mc layer).1 = true ∧
        (set_media_key kb t 0 slot mc layer).2.length = 3) ∧
     (kb.report_id = 0 → t.ok 0 = false →
        (set_media_key kb t 0 slot mc layer).1 = false ∧
        (set_media_key kb t 0 slot mc layer).2.length = 1) ∧
     (kb.report_id = 0 → t.ok 0 = true → t.ok 1 = false →
        (set_media_key kb t 0 slot mc layer).1 = false ∧
        ((set_media_key kb t 0 slot mc layer).2.map Prod.snd).get? 0 = some true)) := by
  refine ⟨⟨fun hm h1 => ?_, fun hm h1 h2 => ?_, fun hm h0 h1 h2 => ?_⟩,
          ⟨fun h0 ha => ?_, fun h0 ha hb => ?_⟩,
          ⟨fun hm h1 => ?_, fun hm h1 h2 => ?_, fun hm h0 h1 h2 => ?_,
           fun h0 ha => ?_, fun h0 ha hb => ?_⟩⟩
  · rw [set_basic_key_modern_eq kb t 0 slot kc mods layer hc hm]; simp [h1]
  · rw [set_basic_key_modern_eq kb t 0 slot kc mods layer hc hm]; simp [h1, h2]
  · rw [set_basic_key_modern_eq kb t 0 slot kc mods layer hc hm]; simp [h1, h2]
  · rw [set_basic_key_legacy_eq kb t 0 slot kc mods layer hc h0]; simp [ha]
  · rw [set_basic_key_legacy_eq kb t 0 slot kc mods layer hc h0]; simp [ha, hb]
  · rw [set_media_key_modern_eq kb t 0 slot mc layer hc hm]; simp [h1]
  · rw [set_media_key_modern_eq kb t 0 slot mc layer hc hm]; simp [h1, h2]
  · rw [set_media_key_modern_eq kb t 0 slot mc layer hc hm]; simp [h1, h2]
  · rw [set_media_key_legacy_eq kb t 0 slot mc layer hc h0]; simp [ha]
  · rw [set_media_key_legacy_eq kb t 0 slot mc layer hc h0]; simp [ha, hb]

theorem C2_amended_witness :
    (set_basic_key ⟨true, 3⟩ ⟨fun n => n != 2⟩ 0 1 4 0 1).1 = false ∧
    ((set_basic_key ⟨true, 3⟩ ⟨fun n => n != 2⟩ 0 1 4 0 1).2.map Prod.snd).get? 1 =
      some true :=
  ((C2_amended_abort ⟨true, 3⟩ ⟨fun n => n != 2⟩ 1 4 0 233 1 rfl).1.2.1
    (by decide) rfl rfl)

/-- C3 counterexample: on a connected Modern session, `set_basic_key`
with layer 0 produces a key-set packet whose type byte is 0x01 (the
unclamped layer is used), not `(1 <<< 4) ||| 0x1 = 17` as the claim
requires; only the layer-switch byte is clamped to 1. -/
theorem C3_counterexample :
    (set_basic_key ⟨true, 3⟩ allOk 0 1 4 0 0).2.map Prod.fst =
      [[3, 161, 1, 0, 0, 0, 0, 0, 0],
       [3, 1, 1, 1, 0, 0, 4, 0, 0],
       [3, 170, 170, 0, 0, 0, 0, 0, 0]] ∧
    ¬ ((set_basic_key ⟨true, 3⟩ allOk 0 1 4 0 0).2.map Prod.fst).get? 1 =
      some [3, 1, 17, 1, 0, 0, 4, 0, 0] := by
  decide

/-- C3 amended: the layer is clamped to 1 only in the layer-switch
packet (for `layer < 1` its layer byte is 1); the Modern key-set type
byte is computed from the unclamped layer, so `set_basic_key` with
layer 0 yields type byte 0x01. -/
theorem C3_amended_clamp (kb : MiniKeyboard) (t : Transport) (n : Nat) (layer : Int)
    (hc : kb.connected = true) (hl : layer < 1) :
    (_send_layer_switch kb t n layer).2.map Prod.fst =
      [kb.report_id :: [0xA1, 1, 0, 0, 0, 0, 0, 0]] ∧
    (∀ slot kc mods : Int, kb.report_id ≠ 0 →
      ((set_basic_key kb t n slot kc mods 0).2.map Prod.fst).get? 1 =
        some (kb.report_id :: [slot, 1, 1, 0, mods, kc, 0, 0])) := by
  constructor
  · simp [_send_layer_switch, _write_report, hc, if_pos hl,
      pad8_of_length_eight]
  · intro slot kc mods hm
    rw [set_basic_key_modern_eq kb t n slot kc mods 0 hc hm]
    have hty : modern_type_byte 0 KeyType.BASIC = 1 := by decide
    cases h1 : t.ok (n + 1) <;> simp [h1, hty]

theorem C3_amended_witness :
    (_send_layer_switch ⟨true, 3⟩ allOk 0 0).2.map Prod.fst =
      [[3, 161, 1, 0, 0, 0, 0, 0, 0]] ∧
    ((set_basic_key ⟨true, 3⟩ allOk 0 1 4 0 0).2.map Prod.fst).get? 1 =
      some [3, 1, 1, 1, 0, 0, 4, 0, 0] :=
  ⟨(C3_amended_clamp ⟨true, 3⟩ allOk 0 0 rfl (by decide)).1,
   (C3_amended_clamp ⟨true, 3⟩ allOk 0 0 rfl (by decide)).2 1 4 0 (by decide)⟩

/-- C6: `parse_key_combo` lower-cases, strips spaces and splits on `+`;
any input whose normalisation is `ctrl+shift+a` parses to modifiers
`CTRL ||| SHIFT = 3` and keycode 4, whatever its casing or spacing. -/
theorem C6_parse_ctrl_shift_a (s : String)
    (h : removeSpaces (s.data.map Char.toLower) = "ctrl+shift+a".data) :
    parse_key_combo s = (3, 4) := by
  simp only [parse_key_combo]
  rw [h]
  decide

theorem C6_witness : parse_key_combo "Ctrl + SHIFT + a" = (3, 4) :=
  C6_parse_ctrl_shift_a "Ctrl + SHIFT + a" (by decide)

theorem comboStep_of_not_token (acc : Nat × Nat) (part : String)
    (h : isComboToken part = false) : comboStep acc part = acc := by
  simp only [isComboToken, Bool.or_eq_false_iff] at h
  obtain ⟨⟨⟨⟨⟨⟨⟨⟨⟨h1, h2⟩, h3⟩, h4⟩, h5⟩, h6⟩, h7⟩, h8⟩, h9⟩, h10⟩ := h
  cases hlk : List.lookup part KEYCODES with
  | some v => rw [hlk] at h9; simp at h9
  | none =>
    simp [comboStep, h1, h2, h3, h4, h5, h6, h7, h8, h10, hlk]

theorem foldl_comboStep_not_token (toks : List (List Char))
    (h : ∀ p ∈ toks, isComboToken (String.mk p) = false) :
    (toks.map (fun cs => String.mk cs)).foldl comboStep (0, 0) = (0, 0) := by
  induction toks with
  | nil => rfl
  | cons p ps ih =>
    have hp := h p (List.mem_cons_self p ps)
    simp only [List.map_cons, List.foldl_cons, comboStep_of_not_token _ _ hp]
    exact ih (fun q hq => h q (List.mem_cons_of_mem p hq))

/-- C7: tokens recognised by no branch of the parser loop are silently
ignored, so an input made solely of unrecognised tokens parses to
`(0, 0)`; in particular the media-table token `volup` is not in
`KEYCODES` (it lives in `MEDIA_KEYCODES`) and parses to keycode 0. -/
theorem C7_unrecognized_tokens :
    (∀ s : String,
      (∀ p ∈ splitOnPlus (removeSpaces (s.data.map Char.toLower)),
        isComboToken (String.mk p) = false) →
      parse_key_combo s = (0, 0)) ∧
    parse_key_combo "volup" = (0, 0) ∧
    List.lookup "volup" KEYCODES = none ∧
    List.lookup "volup" MEDIA_KEYCODES = some 233 := by
  refine ⟨fun s h => ?_, by decide, by decide, by decide⟩
  simp only [parse_key_combo]
  exact foldl_comboStep_not_token _ h

theorem C7_witness : parse_key_combo "unknownxyz" = (0, 0) :=
  C7_unrecognized_tokens.1 "unknownxyz" (by decide)

theorem or_lt_sixteen {a b : Nat} (ha : a < 16) (hb : b < 16) : a ||| b < 16 :=
  @Nat.or_lt_two_pow a b 4 ha hb

theorem comboStep_fst_lt (acc : Nat × Nat) (part : String) (h : acc.1 < 16) :
    (comboStep acc part).1 < 16 := by
  unfold comboStep
  repeat' split
  all_goals first
    | exact h
    | exact or_lt_sixteen h (by decide)

/-- C10: for every input string the modifier bitmask returned by
`parse_key_combo` lies in 0..15 — only the left-side bits CTRL, SHIFT,
ALT, WIN are ever set, never the right-side `Modifier` bits. -/
theorem C10_modifiers_lt_sixteen (s : String) : (parse_key_combo s).1 < 16 := by
  simp only [parse_key_combo]
  generalize ((splitOnPlus (removeSpaces (s.data.map Char.toLower))).map
    (fun cs => String.mk cs)) = parts
  have : ∀ (acc : Nat × Nat), acc.1 < 16 → (parts.foldl comboStep acc).1 < 16 := by
    induction parts with
    | nil => exact fun acc h => h
    | cons p ps ih =>
      exact fun acc h => ih _ (comboStep_fst_lt acc p h)
  exact this (0, 0) (by decide)
